import Mathlib

/-!
Verification development for a single-file financial dashboard (app1.py).

The program fetches a company profile, fundamental metrics and analyst
recommendation trends for a ticker, renders them as tables and a chart,
derives a buy/hold/sell insight label, and optionally offers a CSV export
of the metrics.  We embed the payload-shaping and decision logic shallowly:
JSON-ish payload values become `Val`, dictionaries become association
lists, the three fetch adapters become functions from a provider outcome
(payload or raised exception) to the dictionary the Python code returns,
and the per-tab rendering of the script body becomes an explicit sequential
evaluator in which a Python exception surfaces as an error value.
-/

/-- A payload value: the embedding distinguishes numbers (modelled as `Int`)
from strings, which is the distinction the program itself tests with
`isinstance(v, (int, float))`. -/
inductive Val where
  | num (n : Int)
  | str (s : String)
deriving DecidableEq, Repr

/-- A JSON-object payload: an association list from field name to value,
embedding a Python dict. -/
def Dict : Type := List (String × Val)

instance : DecidableEq Dict := by
  unfold Dict
  infer_instance

instance : Membership (String × Val) Dict := by
  unfold Dict
  infer_instance

instance : Repr Dict :=
  inferInstanceAs (Repr (List (String × Val)))

/-- Dictionary field lookup, embedding `d[k]` / `d.get(k)`: the first entry
with the given key, if any. -/
def dget (d : Dict) (k : String) : Option Val :=
  (d.find? (fun p => p.1 == k)).map (fun p => p.2)

/-- Lookup with a default, embedding Python `d.get(k, default)`. -/
def pget (d : Dict) (k : String) (default : Val) : Val :=
  (dget d k).getD default

/-- Key membership, embedding Python `k in d` on a dict. -/
def hasKey (d : Dict) (k : String) : Bool :=
  (dget d k).isSome

/-- Integer field lookup, embedding `rec[k]` where the program then sums the
value: `none` models the `KeyError` on a missing key, and also the
`TypeError` that summing a non-numeric value would raise. -/
def dgetInt (r : Dict) (k : String) : Option Int :=
  match dget r k with
  | some (Val.num n) => some n
  | _ => none

/-- Outcome of the remote profile call: either a payload dict or a raised
exception carrying its stringified message. -/
inductive ProfileOutcome where
  | ok (d : Dict)
  | exn (msg : String)

/-- Outcome of the remote basic-financials call: on success the value of the
response field named metric (absent field modelled as `none`), or a raised
exception. -/
inductive MetricsOutcome where
  | ok (metricField : Option Dict)
  | exn (msg : String)

/-- Outcome of the remote recommendation-trends call: a list of trend
records or a raised exception. -/
inductive RecOutcome where
  | ok (recs : List Dict)
  | exn (msg : String)

/-- What `fetch_recommendations` returns: either an error dict or the raw
list of trend records (the Python function returns one or the other). -/
inductive RecValue where
  | errDict (d : Dict)
  | trendList (l : List Dict)
deriving DecidableEq, Repr

/-- Embeds `fetch_company_profile` (app1.py lines 22-27): on success the
payload is returned unchanged; on exception an error dict whose message
prefixes the stringified exception with a fixed text. -/
def fetch_company_profile (o : ProfileOutcome) : Dict :=
  match o with
  | ProfileOutcome.ok d => d
  | ProfileOutcome.exn msg =>
      [("error", Val.str ("Error fetching company profile: " ++ msg))]

/-- Embeds `fetch_detailed_metrics` (app1.py lines 30-37): an absent or
falsy (empty) metric field becomes a no-data error dict, an exception
becomes an error dict with the stringified exception, and otherwise the
metric mapping is returned unchanged. -/
def fetch_detailed_metrics (o : MetricsOutcome) : Dict :=
  match o with
  | MetricsOutcome.exn msg => [("error", Val.str msg)]
  | MetricsOutcome.ok none =>
      [("error", Val.str "No metrics available for this ticker")]
  | MetricsOutcome.ok (some m) =>
      if m = [] then [("error", Val.str "No metrics available for this ticker")]
      else m

/-- Embeds `fetch_recommendations` (app1.py lines 40-47): an empty trend
list becomes a no-data error dict, an exception becomes an error dict with
the stringified exception, and otherwise the list is returned unchanged. -/
def fetch_recommendations (o : RecOutcome) : RecValue :=
  match o with
  | RecOutcome.exn msg => RecValue.errDict [("error", Val.str msg)]
  | RecOutcome.ok l =>
      if l = [] then RecValue.errDict [("error", Val.str "No recommendations available")]
      else RecValue.trendList l

/-- The four labels the Insights tab can display. -/
inductive InsightLabel where
  | StrongBuy
  | Hold
  | Sell
  | NoConsensus
deriving DecidableEq, Repr

/-- Embeds the Insights tab decision (app1.py lines 159-166): strict
pairwise comparison of the three totals, defaulting to no consensus. -/
def insight (buy hold sell : Int) : InsightLabel :=
  if buy > sell ∧ buy > hold then InsightLabel.StrongBuy
  else if hold > buy ∧ hold > sell then InsightLabel.Hold
  else if sell > buy ∧ sell > hold then InsightLabel.Sell
  else InsightLabel.NoConsensus

/-- Sums `f` over a list of records, embedding
`sum([rec[k] for rec in recs])`: `none` models the exception raised when
any record lacks the key (or holds a non-numeric value). -/
def optSum (f : Dict → Option Int) : List Dict → Option Int
  | [] => some 0
  | r :: rs => (f r).bind (fun x => (optSum f rs).map (fun s => x + s))

/-- Embeds `sum([rec["buy"] for rec in recommendations])` (app1.py line 143). -/
def sumBuy (l : List Dict) : Option Int := optSum (fun r => dgetInt r "buy") l

/-- Embeds `sum([rec["hold"] for rec in recommendations])` (app1.py line 144). -/
def sumHold (l : List Dict) : Option Int := optSum (fun r => dgetInt r "hold") l

/-- Embeds `sum([rec["sell"] for rec in recommendations])` (app1.py line 145). -/
def sumSell (l : List Dict) : Option Int := optSum (fun r => dgetInt r "sell") l

/-- Groups a reversed digit sequence into blocks of three separated by
commas, still reversed; helper for the thousands-separator format. -/
def groupThrees : List Char → List Char
  | a :: b :: c :: d :: rest => a :: b :: c :: ',' :: groupThrees (d :: rest)
  | l => l

/-- Embeds the Python format `f"{n:,.2f}"` on our integer-valued numbers:
thousands separators in the integer part and exactly two decimal places. -/
def formatComma2 (n : Int) : String :=
  (if n < 0 then "-" else "")
    ++ String.mk (groupThrees (toString n.natAbs).data.reverse).reverse
    ++ ".00"

/-- Formats a numeric profile field as the code does with
`f"{profile.get(k, 0):,.2f}"`: an absent field defaults to 0 before
formatting; a present non-numeric value makes the format call raise
(modelled as `none`). -/
def fmtNumField (p : Dict) (k : String) : Option String :=
  match pget p k (Val.num 0) with
  | Val.num n => some (formatComma2 n)
  | Val.str _ => none

/-- Embeds the `profile_data` dict built in the Profile tab (app1.py lines
79-87): ordered rows of label and displayed value, where plain fields use
`.get(k, "N/A")` and the two numeric fields are formatted; `none` models
the exception a present non-numeric value would raise in the f-string. -/
def profile_data (p : Dict) : Option (List (String × Val)) :=
  match fmtNumField p "marketCapitalization", fmtNumField p "shareOutstanding" with
  | some mc, some so => some
      [("Name", pget p "name" (Val.str "N/A")),
       ("Ticker", pget p "ticker" (Val.str "N/A")),
       ("Industry", pget p "finnhubIndustry" (Val.str "N/A")),
       ("Country", pget p "country" (Val.str "N/A")),
       ("Exchange", pget p "exchange" (Val.str "N/A")),
       ("Market Cap (in Billion)", Val.str mc),
       ("Share Outstanding", Val.str so)]
  | _, _ => none

/-- Embeds the `income_data` dict of the Metrics tab (app1.py lines 103-106). -/
def income_data (m : Dict) : List (String × Val) :=
  [("Revenue Per Share", pget m "revenuePerShareAnnual" (Val.str "N/A")),
   ("Net Income", pget m "netIncomeAnnual" (Val.str "N/A"))]

/-- Embeds the `balance_data` dict of the Metrics tab (app1.py lines 107-110). -/
def balance_data (m : Dict) : List (String × Val) :=
  [("Total Assets", pget m "totalAssets" (Val.str "N/A")),
   ("Total Liabilities", pget m "totalLiabilities" (Val.str "N/A"))]

/-- Embeds the `valuation_data` dict of the Metrics tab (app1.py lines 111-114). -/
def valuation_data (m : Dict) : List (String × Val) :=
  [("P/E Ratio", pget m "peNormalizedAnnual" (Val.str "N/A")),
   ("EV/EBITDA", pget m "enterpriseValueOverEBITDA" (Val.str "N/A"))]

/-- Embeds the chart coercion `v if isinstance(v, (int, float)) else 0`
(app1.py line 127). -/
def chartCoerce : Val → Int
  | Val.num n => n
  | Val.str _ => 0

/-- Embeds the `chart_data` frame (app1.py lines 125-128): the keys of
`income_data` zipped with its values coerced to numbers. -/
def chart_data (m : Dict) : List (String × Int) :=
  ((income_data m).map (fun p => p.1)).zip
    ((income_data m).map (fun p => chartCoerce p.2))

/-- The chart types offered in the sidebar selectbox. -/
inductive ChartType where
  | Bar
  | Line
  | Pie
deriving DecidableEq, Repr

/-- What one tab of the dashboard displays. -/
inductive SectionRender where
  | failureMsg (v : Val)
  | profileRows (rows : List (String × Val))
  | metricsView (ct : ChartType) (income balance valuation : List (String × Val))
      (chart : List (String × Int))
  | recView (buy hold sell : Int)
  | insightView (label : InsightLabel)
deriving DecidableEq, Repr

/-- Embeds the Profile tab (app1.py lines 74-91): an error dict renders the
error message, otherwise the profile rows; `Except.error` models a raised
exception. -/
def profileSection (p : Dict) : Except String SectionRender :=
  if hasKey p "error" then Except.ok (SectionRender.failureMsg (pget p "error" (Val.str "")))
  else
    match profile_data p with
    | some rows => Except.ok (SectionRender.profileRows rows)
    | none => Except.error "TypeError"

/-- Embeds the Metrics tab (app1.py lines 98-135): an error dict renders
the error message, otherwise the three grouped tables together with the
chart series built from the same input; the tab itself cannot raise. -/
def metricsSection (m : Dict) (ct : ChartType) : SectionRender :=
  if hasKey m "error" then SectionRender.failureMsg (pget m "error" (Val.str ""))
  else
    SectionRender.metricsView ct (income_data m) (balance_data m)
      (valuation_data m) (chart_data m)

/-- Embeds the Recommendations tab (app1.py lines 138-154): an error dict
renders the error message and leaves the totals unassigned (`none`); a
trend list renders the three sums and assigns the totals, unless a record
lacks a count key, in which case the indexing raises. -/
def recSection (r : RecValue) : Except String (SectionRender × Option (Int × Int × Int)) :=
  match r with
  | RecValue.errDict d =>
      Except.ok (SectionRender.failureMsg (pget d "error" (Val.str "")), none)
  | RecValue.trendList l =>
      match sumBuy l, sumHold l, sumSell l with
      | some b, some h, some s =>
          Except.ok (SectionRender.recView b h s, some (b, h, s))
      | _, _, _ => Except.error "KeyError"

/-- Embeds the Insights tab (app1.py lines 157-166): it reads the local
variables `buy`, `hold`, `sell`, which exist only when the Recommendations
tab took its success branch; when they were never assigned the comparison
raises a NameError. -/
def insightsSection (sums : Option (Int × Int × Int)) : Except String SectionRender :=
  match sums with
  | none => Except.error "NameError: name buy is not defined"
  | some (b, h, s) => Except.ok (SectionRender.insightView (insight b h s))

/-- Converts a value to its textual form for the CSV, as pandas does via
`str`. -/
def pyStr : Val → String
  | Val.num n => toString n
  | Val.str s => s

/-- The lines of the exported CSV: the header row followed by one
`key,value` row per metrics entry. -/
def csvRows (m : Dict) : List String :=
  "Metric,Value" :: m.map (fun p => p.1 ++ "," ++ pyStr p.2)

/-- Embeds `metrics_data.to_csv(index=False)` (app1.py lines 170-176). -/
def to_csv (m : Dict) : String :=
  String.join ((csvRows m).map (fun row => row ++ "\n"))

/-- Embeds the Data Download block (app1.py lines 169-179): the artifact
(filename and CSV text) is offered exactly when the download checkbox is
set and the metrics result has no error key. -/
def exportSection (download : Bool) (m : Dict) (ticker : String) :
    Option (String × String) :=
  if download && !hasKey m "error" then
    some (ticker ++ "_metrics.csv", to_csv m)
  else none

/-- The observable outcome of one Generate action: the sections rendered
before any exception, the export artifact if offered, and the exception
that aborted the script, if any. -/
structure ScriptOutcome where
  rendered : List SectionRender
  exportArtifact : Option (String × String)
  error : Option String
deriving DecidableEq, Repr

/-- Embeds the body of the Generate action (app1.py lines 60-179): the
adapters run first, then the four tabs render in order, then the download
block; a raised exception aborts the remainder of the script while the
sections already rendered stay displayed. -/
def runScript (ticker : String) (ct : ChartType) (download : Bool)
    (po : ProfileOutcome) (mo : MetricsOutcome) (ro : RecOutcome) : ScriptOutcome :=
  let p := fetch_company_profile po
  let m := fetch_detailed_metrics mo
  let r := fetch_recommendations ro
  match profileSection p with
  | Except.error e => ⟨[], none, some e⟩
  | Except.ok pR =>
    let mR := metricsSection m ct
    match recSection r with
    | Except.error e => ⟨[pR, mR], none, some e⟩
    | Except.ok (rR, sums) =>
      match insightsSection sums with
      | Except.error e => ⟨[pR, mR, rR], none, some e⟩
      | Except.ok iR =>
          ⟨[pR, mR, rR, iR], exportSection download m ticker, none⟩

/-- States that a field is absent or holds a number, so that the numeric
f-string format applied to it cannot raise. -/
def plainNumField (p : Dict) (k : String) : Prop :=
  ∀ s, dget p k ≠ some (Val.str s)

/-- An absent numeric field defaults to 0 and formats as the string 0.00. -/
theorem fmtNumField_of_absent (p : Dict) (k : String) (h : dget p k = none) :
    fmtNumField p k = some "0.00" := by
  simp [fmtNumField, pget, h]
  rfl

/-- A present numeric field formats as its thousands-separated form. -/
theorem fmtNumField_of_num (p : Dict) (k : String) (n : Int)
    (h : dget p k = some (Val.num n)) :
    fmtNumField p k = some (formatComma2 n) := by
  simp [fmtNumField, pget, h]

/-- On an absent-or-numeric field the formatter yields a value. -/
theorem fmtNumField_of_plain (p : Dict) (k : String) (h : plainNumField p k) :
    ∃ out, fmtNumField p k = some out := by
  unfold fmtNumField pget
  cases hv : dget p k with
  | none => exact ⟨formatComma2 0, rfl⟩
  | some v =>
      cases v with
      | num n => exact ⟨formatComma2 n, rfl⟩
      | str s => exact absurd hv (h s)

/-- The profile rows, spelled out, once both numeric fields format. -/
theorem profile_data_rows (p : Dict) (mc so : String)
    (hmc : fmtNumField p "marketCapitalization" = some mc)
    (hso : fmtNumField p "shareOutstanding" = some so) :
    profile_data p = some
      [("Name", pget p "name" (Val.str "N/A")),
       ("Ticker", pget p "ticker" (Val.str "N/A")),
       ("Industry", pget p "finnhubIndustry" (Val.str "N/A")),
       ("Country", pget p "country" (Val.str "N/A")),
       ("Exchange", pget p "exchange" (Val.str "N/A")),
       ("Market Cap (in Billion)", Val.str mc),
       ("Share Outstanding", Val.str so)] := by
  simp [profile_data, hmc, hso]

/-- Permuting the records leaves an optional sum unchanged. -/
theorem optSum_perm (f : Dict → Option Int) {l l' : List Dict}
    (h : l.Perm l') : optSum f l = optSum f l' := by
  induction h with
  | nil => rfl
  | cons x _ ih => simp [optSum, ih]
  | swap x y l =>
      simp only [optSum]
      cases f x <;> cases f y <;> cases optSum f l <;>
        simp [Option.bind, Int.add_left_comm]
  | trans _ _ ih1 ih2 => exact ih1.trans ih2

/-- C1: the Insight Rule is a total function on triples of non-negative
integers producing exactly one label, and the label is StrongBuy iff buy is
the unique strict maximum, Hold iff hold is, Sell iff sell is, and
NoConsensus exactly in the remaining (tie) cases. -/
theorem c1_insight_rule_total (b h s : Int)
    (hb : 0 ≤ b) (hh : 0 ≤ h) (hs : 0 ≤ s) :
    (insight b h s = InsightLabel.StrongBuy ↔ (b > h ∧ b > s))
    ∧ (insight b h s = InsightLabel.Hold ↔ (h > b ∧ h > s))
    ∧ (insight b h s = InsightLabel.Sell ↔ (s > b ∧ s > h))
    ∧ (insight b h s = InsightLabel.NoConsensus ↔
        (¬(b > h ∧ b > s) ∧ ¬(h > b ∧ h > s) ∧ ¬(s > b ∧ s > h))) := by
  unfold insight
  split_ifs with h1 h2 h3 <;>
    refine ⟨⟨fun he => ?_, fun hc => ?_⟩, ⟨fun he => ?_, fun hc => ?_⟩,
      ⟨fun he => ?_, fun hc => ?_⟩, ⟨fun he => ?_, fun hc => ?_⟩⟩ <;>
    first
      | rfl
      | omega
      | (exact absurd he (by simp))
      | (exact absurd hc (by omega))

/-- Witness for C1 at the concrete triple (10, 3, 2). -/
theorem c1_witness :
    insight 10 3 2 = InsightLabel.StrongBuy :=
  (c1_insight_rule_total 10 3 2 (by norm_num) (by norm_num) (by norm_num)).1.2
    (by norm_num)

/-- C2: field-wise summation over the empty trend sequence yields the
summary (0, 0, 0), and the Insight Rule maps it to NoConsensus. -/
theorem c2_empty_trend_no_consensus :
    sumBuy [] = some 0 ∧ sumHold [] = some 0 ∧ sumSell [] = some 0
    ∧ insight 0 0 0 = InsightLabel.NoConsensus := by
  refine ⟨rfl, rfl, rfl, ?_⟩
  rfl

/-- C3: evaluating one Generate action in which the recommendations
adapter returns its no-data Failure while the profile and metrics
adapters succeed: the Profile, Metrics and Recommendations sections
render, but the Insights section raises a NameError (the totals were
never assigned) and the script aborts, so the download block is skipped
even though downloads were enabled and metrics succeeded.  This
contradicts the claim that a Failure in one adapter leaves every other
section rendering without raising. -/
theorem c3_recs_failure_aborts_script :
    runScript "AAPL" ChartType.Bar true
      (ProfileOutcome.ok [("name", Val.str "Apple")])
      (MetricsOutcome.ok (some [("peNormalizedAnnual", Val.num 30)]))
      (RecOutcome.ok []) =
    ⟨[SectionRender.profileRows
        [("Name", Val.str "Apple"), ("Ticker", Val.str "N/A"),
         ("Industry", Val.str "N/A"), ("Country", Val.str "N/A"),
         ("Exchange", Val.str "N/A"),
         ("Market Cap (in Billion)", Val.str "0.00"),
         ("Share Outstanding", Val.str "0.00")],
      SectionRender.metricsView ChartType.Bar
        [("Revenue Per Share", Val.str "N/A"), ("Net Income", Val.str "N/A")]
        [("Total Assets", Val.str "N/A"), ("Total Liabilities", Val.str "N/A")]
        [("P/E Ratio", Val.num 30), ("EV/EBITDA", Val.str "N/A")]
        [("Revenue Per Share", (0 : Int)), ("Net Income", (0 : Int))],
      SectionRender.failureMsg (Val.str "No recommendations available")],
     none,
     some "NameError: name buy is not defined"⟩ := by
  rfl

/-- C4 counterexample: a trend record with every field absent makes the
Recommendations rendering raise a KeyError instead of substituting a
placeholder, refuting the claim that the Presentation Builder never raises
when expected fields are absent from trend records. -/
theorem c4_counterexample :
    recSection (fetch_recommendations (RecOutcome.ok [([] : Dict)]))
      = Except.error "KeyError" := by
  rfl

/-- C4 amended: the builders never raise for absent profile fields and
absent metric fields, rendering the placeholder instead, but each trend
record is indexed directly for its buy/hold/sell counts, so a record with
such a field absent raises rather than rendering a placeholder. -/
theorem c4_amended :
    (∀ p : Dict, plainNumField p "marketCapitalization" →
      plainNumField p "shareOutstanding" →
      (profile_data p).isSome = true
      ∧ (dget p "name" = none →
          ("Name", Val.str "N/A") ∈ (profile_data p).getD [])
      ∧ (dget p "ticker" = none →
          ("Ticker", Val.str "N/A") ∈ (profile_data p).getD [])
      ∧ (dget p "finnhubIndustry" = none →
          ("Industry", Val.str "N/A") ∈ (profile_data p).getD [])
      ∧ (dget p "country" = none →
          ("Country", Val.str "N/A") ∈ (profile_data p).getD [])
      ∧ (dget p "exchange" = none →
          ("Exchange", Val.str "N/A") ∈ (profile_data p).getD []))
    ∧ (∀ m : Dict,
      (dget m "revenuePerShareAnnual" = none →
        ("Revenue Per Share", Val.str "N/A") ∈ income_data m)
      ∧ (dget m "netIncomeAnnual" = none →
        ("Net Income", Val.str "N/A") ∈ income_data m)
      ∧ (dget m "totalAssets" = none →
        ("Total Assets", Val.str "N/A") ∈ balance_data m)
      ∧ (dget m "totalLiabilities" = none →
        ("Total Liabilities", Val.str "N/A") ∈ balance_data m)
      ∧ (dget m "peNormalizedAnnual" = none →
        ("P/E Ratio", Val.str "N/A") ∈ valuation_data m)
      ∧ (dget m "enterpriseValueOverEBITDA" = none →
        ("EV/EBITDA", Val.str "N/A") ∈ valuation_data m))
    ∧ (∀ (r : Dict) (l : List Dict), dget r "buy" = none →
        sumBuy (r :: l) = none) := by
  refine ⟨fun p hmc hso => ?_, fun m => ?_, fun r l h => ?_⟩
  · obtain ⟨mc, hmcs⟩ := fmtNumField_of_plain p _ hmc
    obtain ⟨so, hsos⟩ := fmtNumField_of_plain p _ hso
    rw [profile_data_rows p mc so hmcs hsos]
    refine ⟨rfl, fun h => ?_, fun h => ?_, fun h => ?_, fun h => ?_, fun h => ?_⟩ <;>
      simp [pget, h]
  · refine ⟨fun h => ?_, fun h => ?_, fun h => ?_, fun h => ?_, fun h => ?_,
      fun h => ?_⟩ <;>
      simp [income_data, balance_data, valuation_data, pget, h]
  · simp [sumBuy, optSum, dgetInt, h]

/-- Witness for C4 amended at the empty profile payload, the empty metrics
payload, and a one-record trend list whose record is empty. -/
theorem c4_amended_witness :
    (profile_data ([] : Dict)).isSome = true
    ∧ ("Name", Val.str "N/A") ∈ (profile_data ([] : Dict)).getD []
    ∧ ("Revenue Per Share", Val.str "N/A") ∈ income_data ([] : Dict)
    ∧ sumBuy [([] : Dict)] = none := by
  have hp := c4_amended.1 ([] : Dict)
    (fun s h => by simp [dget] at h) (fun s h => by simp [dget] at h)
  exact ⟨hp.1, hp.2.1 rfl, (c4_amended.2.1 ([] : Dict)).1 rfl,
    c4_amended.2.2 [] [] rfl⟩

/-- C5 counterexample: on a profile payload with every field absent, the
market-capitalization row renders the formatted default 0.00 rather than
the placeholder N/A, refuting the claim that every absent profile field
renders as N/A. -/
theorem c5_counterexample :
    ("Market Cap (in Billion)", Val.str "0.00") ∈ (profile_data ([] : Dict)).getD []
    ∧ ("Market Cap (in Billion)", Val.str "N/A") ∉ (profile_data ([] : Dict)).getD [] := by
  decide

/-- C5 amended: absent non-numeric profile fields render the placeholder
N/A; the numeric fields (market capitalization, shares outstanding)
default to 0 when absent and render as the formatted 0.00; present numeric
fields render with thousands separators and two decimal places. -/
theorem c5_amended :
    (∀ p : Dict, plainNumField p "marketCapitalization" →
      plainNumField p "shareOutstanding" →
      (dget p "country" = none →
        ("Country", Val.str "N/A") ∈ (profile_data p).getD [])
      ∧ (dget p "marketCapitalization" = none →
        ("Market Cap (in Billion)", Val.str "0.00") ∈ (profile_data p).getD [])
      ∧ (dget p "shareOutstanding" = none →
        ("Share Outstanding", Val.str "0.00") ∈ (profile_data p).getD []))
    ∧ (∀ (p : Dict) (n : Int), plainNumField p "shareOutstanding" →
        dget p "marketCapitalization" = some (Val.num n) →
        ("Market Cap (in Billion)", Val.str (formatComma2 n)) ∈ (profile_data p).getD [])
    ∧ formatComma2 1234567 = "1,234,567.00"
    ∧ formatComma2 0 = "0.00" := by
  refine ⟨fun p hmc hso => ?_, fun p n hso hmc => ?_, rfl, rfl⟩
  · obtain ⟨mc, hmcs⟩ := fmtNumField_of_plain p _ hmc
    obtain ⟨so, hsos⟩ := fmtNumField_of_plain p _ hso
    rw [profile_data_rows p mc so hmcs hsos]
    refine ⟨fun h => by simp [pget, h], fun h => ?_, fun h => ?_⟩
    · rw [fmtNumField_of_absent p _ h] at hmcs
      simp at hmcs
      simp [hmcs]
    · rw [fmtNumField_of_absent p _ h] at hsos
      simp at hsos
      simp [hsos]
  · obtain ⟨so, hsos⟩ := fmtNumField_of_plain p _ hso
    rw [profile_data_rows p (formatComma2 n) so
      (fmtNumField_of_num p _ n hmc) hsos]
    simp

/-- Witness for C5 amended at the empty payload and at a payload holding a
concrete market capitalization. -/
theorem c5_amended_witness :
    ("Country", Val.str "N/A") ∈ (profile_data ([] : Dict)).getD []
    ∧ ("Market Cap (in Billion)", Val.str "1,234,567.00")
        ∈ (profile_data [("marketCapitalization", Val.num 1234567)]).getD [] := by
  have h1 := (c5_amended.1 ([] : Dict)
    (fun s h => by simp [dget] at h) (fun s h => by simp [dget] at h)).1 rfl
  have h2 := c5_amended.2.1 [("marketCapitalization", Val.num 1234567)] 1234567
    (fun s h => by simp [dget] at h) (by rfl)
  rw [c5_amended.2.2.1] at h2
  exact ⟨h1, h2⟩

/-- C6 counterexample: on a provider exception with stringified message
boom, the profile adapter returns a Failure whose message is the fixed
prefix followed by boom, not the stringified exception itself. -/
theorem c6_counterexample :
    dget (fetch_company_profile (ProfileOutcome.exn "boom")) "error"
        = some (Val.str "Error fetching company profile: boom")
    ∧ "Error fetching company profile: boom" ≠ "boom" := by
  refine ⟨rfl, ?_⟩
  decide

/-- C6 amended: the metrics and recommendations adapters return Failure
with the stringified exception alone, while the profile adapter prefixes
it with a fixed error text; empty metric data and an empty trend list
become the domain-specific no-data Failures; successful payloads pass
through unchanged. -/
theorem c6_amended (msg : String) (d m : Dict) (l : List Dict) :
    fetch_company_profile (ProfileOutcome.exn msg)
        = [("error", Val.str ("Error fetching company profile: " ++ msg))]
    ∧ fetch_detailed_metrics (MetricsOutcome.exn msg) = [("error", Val.str msg)]
    ∧ fetch_recommendations (RecOutcome.exn msg)
        = RecValue.errDict [("error", Val.str msg)]
    ∧ fetch_detailed_metrics (MetricsOutcome.ok none)
        = [("error", Val.str "No metrics available for this ticker")]
    ∧ fetch_detailed_metrics (MetricsOutcome.ok (some []))
        = [("error", Val.str "No metrics available for this ticker")]
    ∧ fetch_recommendations (RecOutcome.ok [])
        = RecValue.errDict [("error", Val.str "No recommendations available")]
    ∧ fetch_company_profile (ProfileOutcome.ok d) = d
    ∧ (m ≠ [] → fetch_detailed_metrics (MetricsOutcome.ok (some m)) = m)
    ∧ (l ≠ [] → fetch_recommendations (RecOutcome.ok l) = RecValue.trendList l) := by
  refine ⟨rfl, rfl, rfl, rfl, rfl, rfl, rfl, fun hm => ?_, fun hl => ?_⟩
  · simp [fetch_detailed_metrics, hm]
  · simp [fetch_recommendations, hl]

/-- Witness for C6 amended at concrete non-empty payloads. -/
theorem c6_amended_witness :
    fetch_detailed_metrics (MetricsOutcome.ok (some [("peNormalizedAnnual", Val.num 30)]))
        = [("peNormalizedAnnual", Val.num 30)]
    ∧ fetch_recommendations (RecOutcome.ok [[("buy", Val.num 1)]])
        = RecValue.trendList [[("buy", Val.num 1)]] := by
  obtain ⟨-, -, -, -, -, -, -, hm, hl⟩ :=
    c6_amended "boom" [] [("peNormalizedAnnual", Val.num 30)] [[("buy", Val.num 1)]]
  exact ⟨hm (by decide), hl (by decide)⟩

/-- C7: the CSV export has one header row Metric,Value plus one row per
metrics key (only the header for an empty mapping), is named by appending
a fixed suffix to the ticker, and is offered exactly when the download
checkbox is set and the metrics result carries no error key. -/
theorem c7_export_shape_and_trigger (m : Dict) (download : Bool) (t : String) :
    (csvRows m).length = m.length + 1
    ∧ (csvRows m).head? = some "Metric,Value"
    ∧ (m = [] → csvRows m = ["Metric,Value"])
    ∧ (exportSection download m t ≠ none ↔
        (download = true ∧ hasKey m "error" = false))
    ∧ (∀ a, exportSection download m t = some a →
        a.1 = t ++ "_metrics.csv" ∧ a.2 = to_csv m) := by
  refine ⟨?_, rfl, fun hm => ?_, ?_, fun a ha => ?_⟩
  · simp [csvRows]
  · simp [csvRows, hm]
  · unfold exportSection
    cases download <;> cases hk : hasKey m "error" <;> simp [hk]
  · unfold exportSection at ha
    split at ha
    · cases ha
      rename_i hc
      exact ⟨rfl, rfl⟩
    · cases ha

/-- Witness for C7 at a one-entry mapping, the empty mapping, and a
concrete produced artifact. -/
theorem c7_export_witness :
    exportSection true [("a", Val.num 1)] "AAPL" ≠ none
    ∧ ("AAPL_metrics.csv", to_csv [("a", Val.num 1)]).1 = "AAPL" ++ "_metrics.csv"
    ∧ csvRows ([] : Dict) = ["Metric,Value"] := by
  have h := c7_export_shape_and_trigger [("a", Val.num 1)] true "AAPL"
  have h0 := c7_export_shape_and_trigger ([] : Dict) true "AAPL"
  exact ⟨h.2.2.2.1.mpr ⟨rfl, rfl⟩,
    (h.2.2.2.2 ("AAPL_metrics.csv", to_csv [("a", Val.num 1)]) rfl).1,
    h0.2.2.1 rfl⟩

/-- C8: the chart series is the income table with every non-numeric value
coerced to 0, while the metrics view built from the same payload in the
same pass keeps the income, balance and valuation tables at their original
non-coerced values; in particular a present non-numeric income value shows
unchanged in the table and as 0 in the chart. -/
theorem c8_chart_coercion_frame (m : Dict) (ct : ChartType) :
    chart_data m = (income_data m).map (fun p => (p.1, chartCoerce p.2))
    ∧ (hasKey m "error" = false →
        metricsSection m ct = SectionRender.metricsView ct (income_data m)
          (balance_data m) (valuation_data m) (chart_data m))
    ∧ (∀ s, dget m "revenuePerShareAnnual" = some (Val.str s) →
        ("Revenue Per Share", Val.str s) ∈ income_data m
        ∧ ("Revenue Per Share", (0 : Int)) ∈ chart_data m) := by
  refine ⟨?_, fun hk => ?_, fun s hs => ?_⟩
  · unfold chart_data
    exact List.zip_map' _ _ _
  · simp [metricsSection, hk]
  · constructor
    · simp [income_data, pget, hs]
    · simp [chart_data, income_data, pget, hs]
      simp [chartCoerce]

/-- Witness for C8 at a payload whose revenue-per-share value is the
non-numeric placeholder text. -/
theorem c8_chart_coercion_witness :
    ("Revenue Per Share", (0 : Int))
        ∈ chart_data [("revenuePerShareAnnual", Val.str "None")]
    ∧ metricsSection [("revenuePerShareAnnual", Val.str "None")] ChartType.Bar
        = SectionRender.metricsView ChartType.Bar
            (income_data [("revenuePerShareAnnual", Val.str "None")])
            (balance_data [("revenuePerShareAnnual", Val.str "None")])
            (valuation_data [("revenuePerShareAnnual", Val.str "None")])
            (chart_data [("revenuePerShareAnnual", Val.str "None")]) := by
  have h := c8_chart_coercion_frame [("revenuePerShareAnnual", Val.str "None")]
    ChartType.Bar
  exact ⟨(h.2.2 "None" rfl).2, h.2.1 rfl⟩

/-- C9: field-wise summation of the trend records is order-independent:
permuting the sequence leaves each of the three totals unchanged (also in
the exceptional case, which permuting cannot introduce or remove). -/
theorem c9_summation_perm_invariant (l ll : List Dict) (h : l.Perm ll) :
    sumBuy l = sumBuy ll ∧ sumHold l = sumHold ll ∧ sumSell l = sumSell ll :=
  ⟨optSum_perm _ h, optSum_perm _ h, optSum_perm _ h⟩

/-- Witness for C9 at a concrete two-record swap. -/
theorem c9_summation_perm_witness :
    sumBuy [[("buy", Val.num 1), ("hold", Val.num 2), ("sell", Val.num 3)],
            [("buy", Val.num 4), ("hold", Val.num 5), ("sell", Val.num 6)]]
      = sumBuy [[("buy", Val.num 4), ("hold", Val.num 5), ("sell", Val.num 6)],
            [("buy", Val.num 1), ("hold", Val.num 2), ("sell", Val.num 3)]] :=
  (c9_summation_perm_invariant _ _
    (List.Perm.swap
      [("buy", Val.num 4), ("hold", Val.num 5), ("sell", Val.num 6)]
      [("buy", Val.num 1), ("hold", Val.num 2), ("sell", Val.num 3)] [])).1

/-- C10: adapter success and failure are told apart solely by the key
named error: a non-empty metrics payload that itself contains that key
passes through the adapter unchanged (the fetch succeeded), yet the
Metrics tab renders the failure branch with that value and the download
block offers nothing, for any chart type, ticker and download setting. -/
theorem c10_error_key_discrimination (d : Dict) (ct : ChartType)
    (download : Bool) (t : String) (hne : d ≠ [])
    (hk : hasKey d "error" = true) :
    fetch_detailed_metrics (MetricsOutcome.ok (some d)) = d
    ∧ metricsSection d ct = SectionRender.failureMsg (pget d "error" (Val.str ""))
    ∧ exportSection download d t = none := by
  refine ⟨?_, ?_, ?_⟩
  · simp [fetch_detailed_metrics, hne]
  · simp [metricsSection, hk]
  · simp [exportSection, hk]

/-- Witness for C10 at a metrics payload carrying both an error field and
an ordinary metric. -/
theorem c10_error_key_witness :
    fetch_detailed_metrics (MetricsOutcome.ok
        (some [("error", Val.str "odd"), ("peNormalizedAnnual", Val.num 5)]))
      = [("error", Val.str "odd"), ("peNormalizedAnnual", Val.num 5)]
    ∧ exportSection true [("error", Val.str "odd"), ("peNormalizedAnnual", Val.num 5)]
        "AAPL" = none := by
  have h := c10_error_key_discrimination
    [("error", Val.str "odd"), ("peNormalizedAnnual", Val.num 5)]
    ChartType.Bar true "AAPL" (by decide) rfl
  exact ⟨h.1, h.2.2⟩
